import Mathlib

/-!
Shallow embedding of the intake-agent frontend:
the Mode/Session Store (frontend/store/agentStore.ts), the Transcription
Aggregator (useCombinedTranscriptions hook) and the Proxy Route
(the Next.js [...path] API route).

Asynchronous backend calls are modelled by passing the outcome of the
awaited fetch/json pair explicitly: `Except Unit R` is `Except.error ()`
when the fetch or its JSON parsing throws (the `catch` branch runs), and
`Except.ok data` when `await response.json()` resolved to `data`.
`Date.now()` is modelled as an explicit `now : Nat` argument.
-/

namespace Intake

/-- JS `a || b` on an optional string: `undefined` and the empty string are
falsy, so both fall through to the default. -/
def jsOr : Option String → String → String
  | some s, d => if s = "" then d else s
  | none, d => d

/-- The two interaction modes of the store (`'text' | 'voice'`). -/
inductive Mode where
  | text
  | voice
deriving DecidableEq, Repr

/-- One turn of the text conversation (interface Message). -/
structure Message where
  role : String
  content : String
  timestamp : Nat
deriving DecidableEq, Repr

/-- Open mapping of intake fields (interface ClientData): a key is either
absent (`none`) or bound to a value. -/
def ClientData := String → Option String

/-- The empty intake-data object (the literal JS object with no fields). -/
def emptyClientData : ClientData := fun _ => none

/-- Voice connection credentials ({url, token}). -/
structure ConnectionDetails where
  url : String
  token : String
deriving DecidableEq, Repr

/-- The client-side store state (the data fields of AgentState). -/
structure AgentState where
  mode : Mode
  isTransitioning : Bool
  clientData : ClientData
  conversationHistory : List Message
  currentStage : String
  sessionId : String
  connectionDetails : Option ConnectionDetails

/-- The optional `state` object carried by backend responses
({client_data?, current_stage?}). -/
structure StatePayload where
  client_data : Option ClientData
  current_stage : Option String

/-- Parsed JSON body of a switch-mode response. A well-formed but
error-shaped body such as the proxy's fixed error object parses to a value
whose `connection_details`, `message` and `state` fields are all absent and
whose `error` field is present; the store never reads `error`. -/
structure SwitchModeResponse where
  connection_details : Option ConnectionDetails
  message : Option String
  state : Option StatePayload
  error : Option String

/-- The agent_state snapshot sent with backend requests: intake data,
role/content-only history, and stage. -/
structure AgentStateSnapshot where
  client_data : ClientData
  conversation_history : List (String × String)
  current_stage : String

/-- Body of the POST to /api/intake/switch-mode. -/
structure SwitchModeRequest where
  session_id : String
  current_mode : Mode
  new_mode : Mode
  agent_state : AgentStateSnapshot

/-- The snapshot taken by get() at request-building time. -/
def snapshot (s : AgentState) : AgentStateSnapshot :=
  { client_data := s.clientData
    conversation_history := s.conversationHistory.map (fun m => (m.role, m.content))
    current_stage := s.currentStage }

/-- The request body switchMode sends. -/
def mkSwitchRequest (s : AgentState) (newMode : Mode) : SwitchModeRequest :=
  { session_id := s.sessionId
    current_mode := s.mode
    new_mode := newMode
    agent_state := snapshot s }

/-- addMessage: appends one message to the conversation history. -/
def addMessage (s : AgentState) (m : Message) : AgentState :=
  { s with conversationHistory := s.conversationHistory ++ [m] }

/-- updateClientData: shallow merge of a delta into the intake
data (object spread: keys present in the delta win). -/
def updateClientData (s : AgentState) (d : ClientData) : AgentState :=
  { s with clientData := fun k => match d k with
      | some v => some v
      | none => s.clientData k }

/-- The first, synchronous half of switchMode: set the transitioning flag
and build the request body from the current store state. The code performs
these steps unconditionally; there is no branch on `isTransitioning`. -/
def switchModeBegin (s : AgentState) (newMode : Mode) : AgentState × SwitchModeRequest :=
  let pending := { s with isTransitioning := true }
  (pending, mkSwitchRequest pending newMode)

/-- The continuation of switchMode after the awaited fetch/json settles:
the catch branch only clears the flag; the success branch switches the
mode, and for text additionally appends `data.message` (when truthy) and
replaces intake data and stage from `data.state` (when present). -/
def switchModeResolve (pending : AgentState) (newMode : Mode) (now : Nat)
    (outcome : Except Unit SwitchModeResponse) : AgentState :=
  match outcome with
  | .error _ => { pending with isTransitioning := false }
  | .ok data =>
    match newMode with
    | .voice =>
      { pending with
        mode := .voice
        isTransitioning := false
        connectionDetails := data.connection_details }
    | .text =>
      let s1 : AgentState :=
        { pending with mode := .text, isTransitioning := false, connectionDetails := none }
      let s2 : AgentState :=
        match data.message with
        | some msg =>
          if msg = "" then s1
          else addMessage s1 { role := "assistant", content := msg, timestamp := now }
        | none => s1
      match data.state with
      | some st =>
        { s2 with
          clientData := st.client_data.getD emptyClientData
          currentStage := jsOr st.current_stage "greeting" }
      | none => s2

/-- switchMode as a whole: returns the request body it issued together
with the store state after the call settled. -/
def switchMode (s : AgentState) (newMode : Mode) (now : Nat)
    (outcome : Except Unit SwitchModeResponse) : SwitchModeRequest × AgentState :=
  ((switchModeBegin s newMode).2,
   switchModeResolve (switchModeBegin s newMode).1 newMode now outcome)

/-- Parsed JSON body of a text-message response
({response, client_data?, state?}). -/
structure TextMessageResponse where
  response : String
  client_data : Option ClientData
  state : Option StatePayload

/-- The fixed fallback assistant text appended when sendTextMessage
catches an error. -/
def textErrorFallback : String :=
  "Sorry, I encountered an error processing your message. Please try again."

/-- sendTextMessage: optimistic user append, then on resolution either the
assistant response plus client-data merge and stage update, or the fixed
fallback assistant message. Total: the catch swallows every failure, so no
error reaches the caller. -/
def sendTextMessage (s : AgentState) (text : String) (tUser tAssistant : Nat)
    (outcome : Except Unit TextMessageResponse) : AgentState :=
  let s1 := addMessage s { role := "user", content := text, timestamp := tUser }
  match outcome with
  | .error _ =>
    addMessage s1 { role := "assistant", content := textErrorFallback, timestamp := tAssistant }
  | .ok data =>
    let s2 := addMessage s1
      { role := "assistant", content := data.response, timestamp := tAssistant }
    let s3 :=
      match data.client_data with
      | some cd => updateClientData s2 cd
      | none => s2
    match data.state with
    | some st =>
      match st.current_stage with
      | some stage => if stage = "" then s3 else { s3 with currentStage := stage }
      | none => s3
    | none => s3

/-- Parsed JSON body of an initial-greeting response
({greeting, state?}). -/
structure GreetingResponse where
  greeting : String
  state : Option StatePayload

/-- The fixed fallback greeting appended when initialize catches an
error. -/
def fallbackGreeting : String :=
  "Hello! I\x27m your real estate intake assistant. How can I help you today?"

/-- The store's initialize operation (that word is reserved in Lean, hence
the name): append greeting (or fixed fallback), and on success replace
intake data and stage from `data.state` when present. -/
def initializeStore (s : AgentState) (now : Nat)
    (outcome : Except Unit GreetingResponse) : AgentState :=
  match outcome with
  | .error _ =>
    addMessage s { role := "assistant", content := fallbackGreeting, timestamp := now }
  | .ok data =>
    let s1 := addMessage s { role := "assistant", content := data.greeting, timestamp := now }
    match data.state with
    | some st =>
      { s1 with
        clientData := st.client_data.getD emptyClientData
        currentStage := jsOr st.current_stage "greeting" }
    | none => s1

/-- Session identifiers are the template literal of Date.now(). -/
def mkSessionId (now : Nat) : String :=
  "session_" ++ toString now

/-- reset: the state set synchronously by reset() before it invokes
initialize(); every field is written, the previous state is discarded. -/
def reset (now : Nat) : AgentState :=
  { mode := .text
    isTransitioning := false
    clientData := emptyClientData
    conversationHistory := []
    currentStage := "greeting"
    sessionId := mkSessionId now
    connectionDetails := none }

/-- One transcription segment of the aggregator
(interface TranscriptionSegment). -/
structure TranscriptionSegment where
  id : String
  text : String
  role : String
  firstReceivedTime : Nat
deriving DecidableEq, Repr

/-- The comparator passed to .sort: ascending firstReceivedTime. -/
def segLE (a b : TranscriptionSegment) : Bool :=
  a.firstReceivedTime ≤ b.firstReceivedTime

/-- The memoised combinedTranscriptions value: agent segments re-tagged
assistant, user segments re-tagged user, manual segments as accumulated,
concatenated and sorted by the firstReceivedTime comparator (a stable
sort, as Array.prototype.sort is). -/
def combinedTranscriptions
    (agentTranscriptions userTranscriptions manualMessages : List TranscriptionSegment) :
    List TranscriptionSegment :=
  (agentTranscriptions.map (fun v : TranscriptionSegment => { v with role := "assistant" }) ++
   userTranscriptions.map (fun v : TranscriptionSegment => { v with role := "user" }) ++
   manualMessages).mergeSort segLE

/-- addManualMessage: appends one locally synthesized segment to the
manual accumulator; `rand` stands for the random id suffix. -/
def addManualMessage (manualMessages : List TranscriptionSegment)
    (text role : String) (now : Nat) (rand : String) : List TranscriptionSegment :=
  manualMessages ++
    [{ id := "manual-" ++ toString now ++ "-" ++ rand
       text := text
       role := role
       firstReceivedTime := now }]

/-- JSON values, used only as opaque payloads relayed by the proxy
route. -/
inductive Json where
  | null
  | bool (b : Bool)
  | num (n : Int)
  | str (s : String)
  | arr (elems : List Json)
  | obj (fields : List (String × Json))

/-- A backend HTTP response as the route sees it: its status code and the
outcome of `await response.json()` (which throws on a non-JSON body). -/
structure BackendResponse where
  status : Nat
  bodyJson : Except Unit Json

/-- What the route hands back to the browser. -/
structure RouteResponse where
  status : Nat
  body : Json

/-- The default backend base URL. -/
def defaultBaseUrl : String := "http://localhost:8000/api/intake"

/-- INTAKE_API_BASE_URL: the environment value if truthy, else the
default. -/
def intakeApiBaseUrl (env : Option String) : String :=
  jsOr env defaultBaseUrl

/-- The fixed 500 error body the route returns from its catch branch. -/
def proxyErrorBody : Json :=
  Json.obj [("error", Json.str "Failed to communicate with intake agent")]

/-- The URL the route fetches: base joined with the trailing path segments
by `params.path.join(sep)` with a slash separator. -/
def targetUrl (env : Option String) (path : List String) : String :=
  intakeApiBaseUrl env ++ "/" ++ String.intercalate "/" path

/-- The GET handler of the [...path] proxy route. `fetchAt` is the network
environment: the backend response (or a throw) for each URL; the route
fetches the target URL, parses the body, and returns it via
NextResponse.json (status 200); any throw lands in the catch branch, which
returns the fixed error body with status 500. -/
def GET (env : Option String) (path : List String)
    (fetchAt : String → Except Unit BackendResponse) : RouteResponse :=
  match fetchAt (targetUrl env path) with
  | .error _ => { status := 500, body := proxyErrorBody }
  | .ok resp =>
    match resp.bodyJson with
    | .error _ => { status := 500, body := proxyErrorBody }
    | .ok data => { status := 200, body := data }

/-- The POST handler: additionally parses the incoming request body
(`await request.json()`, which can throw into the same catch branch) and
forwards it to the backend. `fetchAt` takes the URL and the forwarded
body. -/
def POST (env : Option String) (path : List String) (requestBody : Except Unit Json)
    (fetchAt : String → Json → Except Unit BackendResponse) : RouteResponse :=
  match requestBody with
  | .error _ => { status := 500, body := proxyErrorBody }
  | .ok body =>
    match fetchAt (targetUrl env path) body with
    | .error _ => { status := 500, body := proxyErrorBody }
    | .ok resp =>
      match resp.bodyJson with
      | .error _ => { status := 500, body := proxyErrorBody }
      | .ok data => { status := 200, body := data }

/-- One store operation together with the data its run consumed: the
timestamps Date.now() produced and the outcome of the awaited backend
call. reset is deliberately excluded (it is the one operation that clears
the history). -/
inductive StoreOp where
  | add (m : Message)
  | send (text : String) (tUser tAssistant : Nat) (outcome : Except Unit TextMessageResponse)
  | init (now : Nat) (outcome : Except Unit GreetingResponse)
  | switch (newMode : Mode) (now : Nat) (outcome : Except Unit SwitchModeResponse)
  | update (d : ClientData)

/-- Run one store operation against a state. -/
def applyOp (s : AgentState) : StoreOp → AgentState
  | .add m => addMessage s m
  | .send text tUser tAssistant outcome => sendTextMessage s text tUser tAssistant outcome
  | .init now outcome => initializeStore s now outcome
  | .switch newMode now outcome => (switchMode s newMode now outcome).2
  | .update d => updateClientData s d

/-- C5: if switchMode to voice succeeds, the resulting state has mode
voice, isTransitioning false, and connectionDetails equal to the
connection details carried by the backend response. -/
theorem switchMode_voice_success (s : AgentState) (now : Nat) (data : SwitchModeResponse) :
    (switchMode s .voice now (.ok data)).2.mode = Mode.voice ∧
    (switchMode s .voice now (.ok data)).2.isTransitioning = false ∧
    (switchMode s .voice now (.ok data)).2.connectionDetails = data.connection_details :=
  ⟨rfl, rfl, rfl⟩

/-- C1 (amended): when the awaited fetch or JSON parse of switchMode
throws, the resulting state is exactly the prior state with the
transitioning flag cleared: mode and every other field are unchanged and
no partial state is applied. -/
theorem switchMode_throw_fail_closed (s : AgentState) (newMode : Mode) (now : Nat)
    (u : Unit) :
    (switchMode s newMode now (.error u)).2 = { s with isTransitioning := false } :=
  rfl

/-- C1 (counterexample): a well-formed but error-shaped JSON response
(the proxy's own 500 body: only an error field) is not detected as a
failure: switchMode to voice processes it as success and changes the mode
from text to voice, contradicting the claim that an error-shaped response
leaves the mode unchanged. -/
theorem switchMode_error_shaped_counterexample :
    ({ mode := .text, isTransitioning := false, clientData := emptyClientData,
       conversationHistory := [], currentStage := "greeting",
       sessionId := "session_1", connectionDetails := none : AgentState }).mode
        = Mode.text ∧
    ({ connection_details := none, message := none, state := none,
       error := some "Failed to communicate with intake agent" : SwitchModeResponse }).error.isSome
        = true ∧
    (switchMode
      { mode := .text, isTransitioning := false, clientData := emptyClientData,
        conversationHistory := [], currentStage := "greeting",
        sessionId := "session_1", connectionDetails := none }
      .voice 0
      (.ok { connection_details := none, message := none, state := none,
             error := some "Failed to communicate with intake agent" })).2.mode
        = Mode.voice :=
  ⟨rfl, rfl, rfl⟩

/-- C10: switchMode has no reentrancy guard: its synchronous first half
sets the transitioning flag and builds the request unconditionally, and
its whole behaviour is the same whether or not the flag was already set
when it was invoked. -/
theorem switchMode_no_reentrancy_guard (s : AgentState) (newMode : Mode) (now : Nat)
    (outcome : Except Unit SwitchModeResponse) :
    (switchModeBegin s newMode).1.isTransitioning = true ∧
    (switchModeBegin s newMode).2 = mkSwitchRequest s newMode ∧
    switchMode { s with isTransitioning := true } newMode now outcome =
      switchMode s newMode now outcome :=
  ⟨rfl, rfl, rfl⟩

/-- C2: one call to sendTextMessage appends exactly the optimistic user
message followed by exactly one assistant message: the backend response
text when the call resolves, the fixed fallback text when it throws. The
operation is total, so no error reaches the caller. -/
theorem sendTextMessage_appends_exactly_one_each (s : AgentState) (text : String)
    (tUser tAssistant : Nat) (outcome : Except Unit TextMessageResponse) :
    (sendTextMessage s text tUser tAssistant outcome).conversationHistory =
      s.conversationHistory ++
        [{ role := "user", content := text, timestamp := tUser },
         { role := "assistant"
           content := match outcome with
             | .ok data => data.response
             | .error _ => textErrorFallback
           timestamp := tAssistant }] := by
  cases outcome with
  | error u => simp [sendTextMessage, addMessage]
  | ok data =>
    simp only [sendTextMessage]
    repeat' split
    all_goals simp [addMessage, updateClientData]

/-- C6 (counterexample): switchMode to text does not merge the response
state into the existing intake data: with previously collected intake
field email present and a success response whose state carries only a new
stage (no client_data), the email field is discarded (replaced by the
empty object), contradicting the merge claim. -/
theorem switchMode_text_merge_counterexample :
    ({ mode := .voice, isTransitioning := false,
       clientData := fun k => if k = "email" then some "ada@example.com" else none,
       conversationHistory := [], currentStage := "contact_info",
       sessionId := "session_7",
       connectionDetails := some { url := "wss://x", token := "t" } : AgentState }).clientData
        "email" = some "ada@example.com" ∧
    (switchMode
      { mode := .voice, isTransitioning := false,
        clientData := fun k => if k = "email" then some "ada@example.com" else none,
        conversationHistory := [], currentStage := "contact_info",
        sessionId := "session_7",
        connectionDetails := some { url := "wss://x", token := "t" } }
      .text 0
      (.ok { connection_details := none, message := none,
             state := some { client_data := none, current_stage := some "budget" },
             error := none })).2.clientData "email" = none ∧
    (switchMode
      { mode := .voice, isTransitioning := false,
        clientData := fun k => if k = "email" then some "ada@example.com" else none,
        conversationHistory := [], currentStage := "contact_info",
        sessionId := "session_7",
        connectionDetails := some { url := "wss://x", token := "t" } }
      .text 0
      (.ok { connection_details := none, message := none,
             state := some { client_data := none, current_stage := some "budget" },
             error := none })).2.currentStage = "budget" := by
  refine ⟨by simp, by simp [switchMode, switchModeBegin, switchModeResolve, emptyClientData], by simp [switchMode, switchModeBegin, switchModeResolve, jsOr]⟩

/-- C6 (amended): on a successful switchMode to text, connection details
are cleared, mode becomes text, a truthy assistant message in the response
is appended; when the response carries a state object the intake data
and stage are replaced wholesale by the response values (empty object or
stage greeting when absent), discarding previously collected fields, and
when it carries none they are left untouched. -/
theorem switchMode_text_success_replaces (s : AgentState) (now : Nat)
    (data : SwitchModeResponse) :
    (switchMode s .text now (.ok data)).2.mode = Mode.text ∧
    (switchMode s .text now (.ok data)).2.isTransitioning = false ∧
    (switchMode s .text now (.ok data)).2.connectionDetails = none ∧
    (∀ st, data.state = some st →
      (switchMode s .text now (.ok data)).2.clientData = st.client_data.getD emptyClientData ∧
      (switchMode s .text now (.ok data)).2.currentStage = jsOr st.current_stage "greeting") ∧
    (data.state = none →
      (switchMode s .text now (.ok data)).2.clientData = s.clientData ∧
      (switchMode s .text now (.ok data)).2.currentStage = s.currentStage) ∧
    (∀ msg, data.message = some msg → msg ≠ "" →
      (switchMode s .text now (.ok data)).2.conversationHistory =
        s.conversationHistory ++ [{ role := "assistant", content := msg, timestamp := now }]) := by
  rcases data with ⟨cd, msg, stt, err⟩
  have hres : ∀ (m : Option String) (so : Option StatePayload),
      (switchMode s .text now
        (.ok { connection_details := cd, message := m, state := so, error := err })).2 =
      { mode := .text
        isTransitioning := false
        clientData := match so with
          | some st => st.client_data.getD emptyClientData
          | none => s.clientData
        conversationHistory := s.conversationHistory ++
          (match m with
           | some t => if t = "" then []
               else [{ role := "assistant", content := t, timestamp := now }]
           | none => [])
        currentStage := match so with
          | some st => jsOr st.current_stage "greeting"
          | none => s.currentStage
        sessionId := s.sessionId
        connectionDetails := none } := by
    intro m so
    cases so with
    | none =>
      cases m with
      | none => simp [switchMode, switchModeBegin, switchModeResolve, addMessage]
      | some t =>
        by_cases ht : t = "" <;>
          simp [switchMode, switchModeBegin, switchModeResolve, addMessage, ht]
    | some st =>
      cases m with
      | none => simp [switchMode, switchModeBegin, switchModeResolve, addMessage]
      | some t =>
        by_cases ht : t = "" <;>
          simp [switchMode, switchModeBegin, switchModeResolve, addMessage, ht]
  refine ⟨by rw [hres], by rw [hres], by rw [hres], ?_, ?_, ?_⟩
  · intro st hst
    obtain rfl : stt = some st := hst
    exact ⟨by rw [hres], by rw [hres]⟩
  · intro hst
    obtain rfl : stt = (none : Option StatePayload) := hst
    exact ⟨by rw [hres], by rw [hres]⟩
  · intro msg2 hm hne
    obtain rfl : msg = some msg2 := hm
    rw [hres]
    simp [hne]

/-- Witness for the amended C6 theorem: a concrete text switch whose
response carries a state object and an assistant message. -/
theorem switchMode_text_success_replaces_witness :
    (switchMode
      { mode := .voice, isTransitioning := false, clientData := emptyClientData,
        conversationHistory := [], currentStage := "contact_info",
        sessionId := "session_7", connectionDetails := none }
      .text 7
      (.ok { connection_details := none, message := some "Back to text.",
             state := some { client_data := none, current_stage := some "budget" },
             error := none })).2.conversationHistory =
      ({ mode := .voice, isTransitioning := false, clientData := emptyClientData,
         conversationHistory := [], currentStage := "contact_info",
         sessionId := "session_7", connectionDetails := none : AgentState }).conversationHistory ++
        [{ role := "assistant", content := "Back to text.", timestamp := 7 }] :=
  (switchMode_text_success_replaces
    { mode := .voice, isTransitioning := false, clientData := emptyClientData,
      conversationHistory := [], currentStage := "contact_info",
      sessionId := "session_7", connectionDetails := none }
    7
    { connection_details := none, message := some "Back to text.",
      state := some { client_data := none, current_stage := some "budget" },
      error := none }).2.2.2.2.2 "Back to text." rfl (by decide)

/-- C7 (counterexample): the regenerated session identifier is the
current millisecond clock value; a reset in the same millisecond in which
the preceding identifier was generated reproduces it exactly, so reset
does not always produce a different identifier. -/
theorem reset_same_millisecond_counterexample :
    mkSessionId 5 = "session_5" ∧
    (reset 5).sessionId =
      ({ mode := .text, isTransitioning := false, clientData := emptyClientData,
         conversationHistory := [], currentStage := "greeting",
         sessionId := mkSessionId 5, connectionDetails := none : AgentState }).sessionId :=
  ⟨rfl, rfl⟩

/-- C7 (amended): reset regenerates the session identifier from the
current time — it differs from the preceding identifier whenever that
identifier is not the one the current millisecond produces — and
synchronously clears history, mode, intake data, stage, flag and
connection details to their initial values before initialize runs. -/
theorem reset_clears_and_regenerates (s : AgentState) (now : Nat)
    (h : s.sessionId ≠ mkSessionId now) :
    (reset now).sessionId ≠ s.sessionId ∧
    (reset now).sessionId = mkSessionId now ∧
    (reset now).conversationHistory = [] ∧
    (reset now).mode = Mode.text ∧
    (reset now).clientData = emptyClientData ∧
    (reset now).connectionDetails = none ∧
    (reset now).isTransitioning = false ∧
    (reset now).currentStage = "greeting" :=
  ⟨fun he => h he.symm, rfl, rfl, rfl, rfl, rfl, rfl, rfl⟩

/-- Witness for the amended C7 theorem at a concrete prior state and a
later millisecond. -/
theorem reset_clears_and_regenerates_witness :
    (reset 2).sessionId ≠
      ({ mode := .text, isTransitioning := false, clientData := emptyClientData,
         conversationHistory := [], currentStage := "greeting",
         sessionId := "session_1", connectionDetails := none : AgentState }).sessionId :=
  (reset_clears_and_regenerates
    { mode := .text, isTransitioning := false, clientData := emptyClientData,
      conversationHistory := [], currentStage := "greeting",
      sessionId := "session_1", connectionDetails := none }
    2 (by decide)).1

/-- C4: the proxy route fetches exactly the configured base URL joined
with the trailing path segments; on a successful fetch and JSON parse it
returns the parsed body verbatim with status 200; when the fetch throws,
the body parse throws, or (for POST) the request-body parse throws, it
returns status 500 with the fixed error body and propagates nothing; the
POST handler forwards the parsed request body unchanged. -/
theorem proxy_forwards_and_fails_closed (env : Option String) (path : List String)
    (fetchG : String → Except Unit BackendResponse)
    (fetchP : String → Json → Except Unit BackendResponse)
    (reqBody : Json) :
    targetUrl env path = jsOr env defaultBaseUrl ++ "/" ++ String.intercalate "/" path ∧
    (∀ st data, fetchG (targetUrl env path) = .ok { status := st, bodyJson := .ok data } →
      GET env path fetchG = { status := 200, body := data }) ∧
    (∀ u, fetchG (targetUrl env path) = .error u →
      GET env path fetchG = { status := 500, body := proxyErrorBody }) ∧
    (∀ st e, fetchG (targetUrl env path) = .ok { status := st, bodyJson := .error e } →
      GET env path fetchG = { status := 500, body := proxyErrorBody }) ∧
    (∀ st data, fetchP (targetUrl env path) reqBody = .ok { status := st, bodyJson := .ok data } →
      POST env path (.ok reqBody) fetchP = { status := 200, body := data }) ∧
    (∀ u, fetchP (targetUrl env path) reqBody = .error u →
      POST env path (.ok reqBody) fetchP = { status := 500, body := proxyErrorBody }) ∧
    (∀ st e, fetchP (targetUrl env path) reqBody = .ok { status := st, bodyJson := .error e } →
      POST env path (.ok reqBody) fetchP = { status := 500, body := proxyErrorBody }) ∧
    (∀ u, POST env path (.error u) fetchP = { status := 500, body := proxyErrorBody }) := by
  refine ⟨rfl, ?_, ?_, ?_, ?_, ?_, ?_, fun u => rfl⟩
  · intro st data h
    simp [GET, h]
  · intro u h
    simp [GET, h]
  · intro st e h
    simp [GET, h]
  · intro st data h
    simp [POST, h]
  · intro u h
    simp [POST, h]
  · intro st e h
    simp [POST, h]

/-- Witness for the proxy theorem: a concrete success GET and a concrete
failing POST. -/
theorem proxy_forwards_and_fails_closed_witness :
    GET none ["foo", "bar"]
        (fun _ => .ok { status := 200, bodyJson := .ok (Json.str "v") }) =
      { status := 200, body := Json.str "v" } ∧
    POST none ["switch-mode"] (.ok Json.null) (fun _ _ => .error ()) =
      { status := 500, body := proxyErrorBody } :=
  ⟨(proxy_forwards_and_fails_closed none ["foo", "bar"]
      (fun _ => .ok { status := 200, bodyJson := .ok (Json.str "v") })
      (fun _ _ => .error ()) Json.null).2.1 200 (Json.str "v") rfl,
   (proxy_forwards_and_fails_closed none ["switch-mode"]
      (fun _ => .error ()) (fun _ _ => .error ()) Json.null).2.2.2.2.2.1 () rfl⟩

/-- C9: the proxy relays every parseable backend body with HTTP status
200 regardless of the backend status code (404, 500, anything), and the
only non-200 response either handler ever produces is the fixed 500 error
response from the catch branch. -/
theorem proxy_ignores_backend_status (env : Option String) (path : List String)
    (st : Nat) (data : Json) (body : Json)
    (fetchG : String → Except Unit BackendResponse)
    (fetchP : String → Json → Except Unit BackendResponse) :
    GET env path (fun _ => .ok { status := st, bodyJson := .ok data }) =
      { status := 200, body := data } ∧
    POST env path (.ok body) (fun _ _ => .ok { status := st, bodyJson := .ok data }) =
      { status := 200, body := data } ∧
    ((GET env path fetchG).status = 200 ∨
      GET env path fetchG = { status := 500, body := proxyErrorBody }) ∧
    ((POST env path (.ok body) fetchP).status = 200 ∨
      POST env path (.ok body) fetchP = { status := 500, body := proxyErrorBody }) := by
  refine ⟨rfl, rfl, ?_, ?_⟩
  · rcases h1 : fetchG (targetUrl env path) with u | resp
    · exact Or.inr (by simp [GET, h1])
    · rcases h2 : resp.bodyJson with e | d
      · exact Or.inr (by simp [GET, h1, h2])
      · exact Or.inl (by simp [GET, h1, h2])
  · rcases h1 : fetchP (targetUrl env path) body with u | resp
    · exact Or.inr (by simp [POST, h1])
    · rcases h2 : resp.bodyJson with e | d
      · exact Or.inr (by simp [POST, h1, h2])
      · exact Or.inl (by simp [POST, h1, h2])

/-- C3: the aggregated transcription view is sorted non-decreasing by
firstReceivedTime, its length is the sum of the three source lengths, it
contains every source element (agent items re-tagged assistant, user
items re-tagged user, manual items as stored), and addManualMessage only
appends to the manual accumulator — so the properties hold after every
interleaving of manual appends and transcript updates. -/
theorem combinedTranscriptions_sorted_complete
    (agents users manual : List TranscriptionSegment) :
    (combinedTranscriptions agents users manual).Pairwise
      (fun a b => a.firstReceivedTime ≤ b.firstReceivedTime) ∧
    (combinedTranscriptions agents users manual).length =
      agents.length + users.length + manual.length ∧
    (∀ x ∈ agents, ({ x with role := "assistant" } : TranscriptionSegment) ∈
      combinedTranscriptions agents users manual) ∧
    (∀ x ∈ users, ({ x with role := "user" } : TranscriptionSegment) ∈
      combinedTranscriptions agents users manual) ∧
    (∀ x ∈ manual, x ∈ combinedTranscriptions agents users manual) ∧
    (∀ text role now rand,
      addManualMessage manual text role now rand =
        manual ++ [{ id := "manual-" ++ toString now ++ "-" ++ rand, text := text,
                     role := role, firstReceivedTime := now }]) := by
  have htrans : ∀ a b c : TranscriptionSegment, segLE a b → segLE b c → segLE a c := by
    intro a b c hab hbc
    simp only [segLE, decide_eq_true_eq] at *
    omega
  have htotal : ∀ a b : TranscriptionSegment, segLE a b || segLE b a := by
    intro a b
    rcases Nat.le_total a.firstReceivedTime b.firstReceivedTime with h | h <;>
      simp [segLE, h]
  refine ⟨?_, ?_, ?_, ?_, ?_, fun text role now rand => rfl⟩
  · exact List.Pairwise.imp
      (fun hab => by simpa only [segLE, decide_eq_true_eq] using hab)
      (List.sorted_mergeSort htrans htotal _)
  · simp only [combinedTranscriptions, List.length_mergeSort, List.length_append,
      List.length_map, Nat.add_assoc]
  · intro x hx
    have hm : ({ x with role := "assistant" } : TranscriptionSegment) ∈
        agents.map (fun v : TranscriptionSegment => { v with role := "assistant" }) :=
      List.mem_map_of_mem _ hx
    simp only [combinedTranscriptions, List.mem_mergeSort]
    exact List.mem_append_left _ (List.mem_append_left _ hm)
  · intro x hx
    have hm : ({ x with role := "user" } : TranscriptionSegment) ∈
        users.map (fun v : TranscriptionSegment => { v with role := "user" }) :=
      List.mem_map_of_mem _ hx
    simp only [combinedTranscriptions, List.mem_mergeSort]
    exact List.mem_append_left _ (List.mem_append_right _ hm)
  · intro x hx
    simp only [combinedTranscriptions, List.mem_mergeSort]
    exact List.mem_append_right _ hx

/-- Witness for the aggregator theorem: a concrete agent segment appears
in the aggregate, re-tagged assistant. -/
theorem combinedTranscriptions_sorted_complete_witness :
    ({ id := "a1", text := "hello", role := "assistant", firstReceivedTime := 3 } :
        TranscriptionSegment) ∈
      combinedTranscriptions
        [{ id := "a1", text := "hello", role := "agent", firstReceivedTime := 3 }] [] [] :=
  (combinedTranscriptions_sorted_complete
      [{ id := "a1", text := "hello", role := "agent", firstReceivedTime := 3 }] [] []).2.2.1
    { id := "a1", text := "hello", role := "agent", firstReceivedTime := 3 }
    (List.mem_singleton.mpr rfl)

/-- Every store operation other than reset leaves the existing
conversation history in place and at most appends to it. -/
theorem applyOp_history_extends (s : AgentState) (op : StoreOp) :
    ∃ t, (applyOp s op).conversationHistory = s.conversationHistory ++ t := by
  cases op with
  | add m => exact ⟨[m], rfl⟩
  | update d => exact ⟨[], by simp [applyOp, updateClientData]⟩
  | send text tU tA outcome =>
    cases outcome with
    | error u =>
      exact ⟨[{ role := "user", content := text, timestamp := tU },
              { role := "assistant", content := textErrorFallback, timestamp := tA }],
        by simp [applyOp, sendTextMessage, addMessage]⟩
    | ok data =>
      refine ⟨[{ role := "user", content := text, timestamp := tU },
               { role := "assistant", content := data.response, timestamp := tA }], ?_⟩
      simp only [applyOp, sendTextMessage]
      repeat' split
      all_goals simp [addMessage, updateClientData]
  | init now outcome =>
    cases outcome with
    | error u =>
      exact ⟨[{ role := "assistant", content := fallbackGreeting, timestamp := now }],
        by simp [applyOp, initializeStore, addMessage]⟩
    | ok data =>
      refine ⟨[{ role := "assistant", content := data.greeting, timestamp := now }], ?_⟩
      simp only [applyOp, initializeStore]
      repeat' split
      all_goals simp [addMessage]
  | switch newMode now outcome =>
    cases outcome with
    | error u => exact ⟨[], by simp [applyOp, switchMode, switchModeBegin, switchModeResolve]⟩
    | ok data =>
      cases newMode with
      | voice => exact ⟨[], by simp [applyOp, switchMode, switchModeBegin, switchModeResolve]⟩
      | text =>
        rcases data with ⟨cd, msg, stt, err⟩
        cases msg with
        | none =>
          cases stt <;>
            exact ⟨[], by simp [applyOp, switchMode, switchModeBegin, switchModeResolve]⟩
        | some m =>
          by_cases hm : m = ""
          · cases stt <;>
              exact ⟨[], by
                simp [applyOp, switchMode, switchModeBegin, switchModeResolve, hm]⟩
          · cases stt <;>
              exact ⟨[{ role := "assistant", content := m, timestamp := now }], by
                simp [applyOp, switchMode, switchModeBegin, switchModeResolve, hm, addMessage]⟩

/-- C8: for every single store operation and every sequence of store
operations excluding reset, the conversation history before is a prefix of
the history after: messages are only appended, never edited or removed,
and ordering equals append order. -/
theorem conversationHistory_append_only (s : AgentState) (op : StoreOp)
    (ops : List StoreOp) :
    s.conversationHistory <+: (applyOp s op).conversationHistory ∧
    s.conversationHistory <+: (ops.foldl applyOp s).conversationHistory := by
  have hstep : ∀ (s : AgentState) (op : StoreOp),
      s.conversationHistory <+: (applyOp s op).conversationHistory := by
    intro s1 op1
    obtain ⟨t, ht⟩ := applyOp_history_extends s1 op1
    rw [ht]
    exact List.prefix_append _ _
  refine ⟨hstep s op, ?_⟩
  induction ops generalizing s with
  | nil => exact List.prefix_rfl
  | cons o rest ih => exact (hstep s o).trans (ih (applyOp s o))

end Intake
